import Mathlib

/-!
Shallow embedding of `cinder/api/v2/volumes.py` (the v2 volumes API
controller of a cloud block-storage control plane): client-facing field
normalization, reference resolution, size derivation, image identity
resolution, the listing query pipeline and the update merger, together
with proofs of the specified properties.

External collaborators (volume-type lookup, snapshot/volume/consistency
group lookup, the image catalog, pagination/sort parsing, the shared
name/description validation contract and the configured filter
allow-list) are supplied as an abstract environment, exactly at the
interface boundary the controller consumes them.
-/

namespace Cinder

/-- Python-style dynamic values as they appear in request mappings. -/
inductive Val where
  | none : Val
  | str : String → Val
  | int : Int → Val
  | bool : Bool → Val
deriving DecidableEq, Repr

/-- Python truthiness of a `Val` (the `if req_volume_type:` test). -/
def Val.truthy : Val → Bool
  | Val.none => false
  | Val.str s => s != ""
  | Val.int n => n != 0
  | Val.bool b => b

/-- Python `str()` rendering, used for `%s` message interpolation. -/
def Val.pyStr : Val → String
  | Val.none => "None"
  | Val.str s => s
  | Val.int n => toString n
  | Val.bool b => if b then "True" else "False"

/-- A request mapping: an association list with Python `dict` semantics
(first occurrence of a key wins on lookup). -/
abbrev Dict := List (String × Val)

/-- `d[k]` / `d.get(k)`: value of the first entry for `k`, if any. -/
def Dict.get : Dict → String → Option Val
  | [], _ => Option.none
  | (k', v) :: rest, k => if k' = k then Option.some v else Dict.get rest k

/-- `d.get(k, default)`. -/
def Dict.getD (m : Dict) (k : String) (d : Val) : Val :=
  (Dict.get m k).getD d

/-- `d[k] = v`: replace the entry in place if the key exists, else append. -/
def Dict.insert : Dict → String → Val → Dict
  | [], k, v => [(k, v)]
  | (k', v') :: rest, k, v =>
    if k' = k then (k, v) :: rest else (k', v') :: Dict.insert rest k v

/-- `del d[k]` (as felt through later lookups): drop the entries for `k`. -/
def Dict.erase : Dict → String → Dict
  | [], _ => []
  | (k', v') :: rest, k =>
    if k' = k then Dict.erase rest k else (k', v') :: Dict.erase rest k

/-- `d[dst] = d.pop(src)` guarded by `if src in d` — the aliasing step
used for `name`, `description` and `image_id` in the create path and for
`name`/`description` in the update path. -/
def Dict.popAssign (m : Dict) (src dst : String) : Dict :=
  match Dict.get m src with
  | Option.some v => Dict.insert (Dict.erase m src) dst v
  | Option.none => m

theorem Dict.get_insert_self (m : Dict) (k : String) (v : Val) :
    Dict.get (Dict.insert m k v) k = Option.some v := by
  induction m with
  | nil => simp [Dict.insert, Dict.get]
  | cons p rest ih =>
    obtain ⟨k', v'⟩ := p
    by_cases h : k' = k
    · simp [Dict.insert, h, Dict.get]
    · simp [Dict.insert, h, Dict.get, ih]

theorem Dict.get_insert_ne (m : Dict) (k k0 : String) (v : Val) (h : k0 ≠ k) :
    Dict.get (Dict.insert m k v) k0 = Dict.get m k0 := by
  induction m with
  | nil => simp [Dict.insert, Dict.get, Ne.symm h]
  | cons p rest ih =>
    obtain ⟨k', v'⟩ := p
    by_cases hk : k' = k
    · subst hk
      simp [Dict.insert, Dict.get, Ne.symm h]
    · simp only [Dict.insert, if_neg hk, Dict.get]
      by_cases hk0 : k' = k0
      · simp [hk0]
      · simp [hk0, ih]

theorem Dict.get_erase_self (m : Dict) (k : String) :
    Dict.get (Dict.erase m k) k = Option.none := by
  induction m with
  | nil => simp [Dict.erase, Dict.get]
  | cons p rest ih =>
    obtain ⟨k', v'⟩ := p
    by_cases h : k' = k
    · simp [Dict.erase, h, ih]
    · simp [Dict.erase, h, Dict.get, ih]

theorem Dict.get_erase_ne (m : Dict) (k k0 : String) (h : k0 ≠ k) :
    Dict.get (Dict.erase m k) k0 = Dict.get m k0 := by
  induction m with
  | nil => simp [Dict.erase]
  | cons p rest ih =>
    obtain ⟨k', v'⟩ := p
    by_cases hk : k' = k
    · subst hk
      simp [Dict.erase, Dict.get, Ne.symm h, ih]
    · simp only [Dict.erase, if_neg hk, Dict.get]
      by_cases hk0 : k' = k0
      · simp [hk0]
      · simp [hk0, ih]

theorem Dict.popAssign_of_get_none (m : Dict) (src dst : String)
    (h : Dict.get m src = Option.none) : Dict.popAssign m src dst = m := by
  unfold Dict.popAssign
  rw [h]

theorem Dict.get_popAssign_src (m : Dict) (src dst : String) (h : src ≠ dst) :
    Dict.get (Dict.popAssign m src dst) src = Option.none := by
  unfold Dict.popAssign
  cases hg : Dict.get m src with
  | none => exact hg
  | some v => rw [Dict.get_insert_ne _ _ _ _ h, Dict.get_erase_self]

theorem Dict.get_popAssign_other (m : Dict) (src dst k : String)
    (h1 : k ≠ src) (h2 : k ≠ dst) :
    Dict.get (Dict.popAssign m src dst) k = Dict.get m k := by
  unfold Dict.popAssign
  cases hg : Dict.get m src with
  | none => rfl
  | some v => rw [Dict.get_insert_ne _ _ _ _ h2, Dict.get_erase_ne _ _ _ h1]

/-- Lines 186–196 of `VolumeController.create`: the v2 field normalizer
renaming `name`→`display_name`, `description`→`display_description` and
`image_id`→`imageRef`, each removing the original key when present. -/
def normalizeFields (volume : Dict) : Dict :=
  Dict.popAssign
    (Dict.popAssign (Dict.popAssign volume "name" "display_name")
      "description" "display_description")
    "image_id" "imageRef"

theorem normalizeFields_of_absent (x : Dict)
    (h1 : Dict.get x "name" = Option.none)
    (h2 : Dict.get x "description" = Option.none)
    (h3 : Dict.get x "image_id" = Option.none) :
    normalizeFields x = x := by
  unfold normalizeFields
  rw [Dict.popAssign_of_get_none _ _ _ h1, Dict.popAssign_of_get_none _ _ _ h2,
    Dict.popAssign_of_get_none _ _ _ h3]

theorem get_normalizeFields_name (m : Dict) :
    Dict.get (normalizeFields m) "name" = Option.none := by
  unfold normalizeFields
  rw [Dict.get_popAssign_other _ _ _ _ (by decide) (by decide),
    Dict.get_popAssign_other _ _ _ _ (by decide) (by decide),
    Dict.get_popAssign_src _ _ _ (by decide)]

theorem get_normalizeFields_description (m : Dict) :
    Dict.get (normalizeFields m) "description" = Option.none := by
  unfold normalizeFields
  rw [Dict.get_popAssign_other _ _ _ _ (by decide) (by decide),
    Dict.get_popAssign_src _ _ _ (by decide)]

theorem get_normalizeFields_image_id (m : Dict) :
    Dict.get (normalizeFields m) "image_id" = Option.none := by
  unfold normalizeFields
  rw [Dict.get_popAssign_src _ _ _ (by decide)]

/-- C7: applying the create-path field normalizer
(`name`→`display_name`, `description`→`display_description`,
`image_id`→`imageRef`, each removing the original key) twice to any
request mapping yields the same mapping as applying it once: after one
application the alias keys are gone, so the second application is a
no-op. -/
theorem normalizeFields_idempotent (m : Dict) :
    normalizeFields (normalizeFields m) = normalizeFields m :=
  normalizeFields_of_absent (normalizeFields m)
    (get_normalizeFields_name m) (get_normalizeFields_description m)
    (get_normalizeFields_image_id m)

/-- The typed errors the controller can surface: `NotFound` propagated
from lookup collaborators, `HTTPBadRequest` with its explanation,
`HTTPConflict` with its explanation, and
`HTTPRequestEntityTooLarge` from the update path. -/
inductive Err where
  | notFound : Err
  | badRequest : String → Err
  | conflict : String → Err
  | entityTooLarge : String → Err
deriving DecidableEq, Repr

/-- A resolved volume type handle (opaque beyond its identity). -/
structure VType where
  id : String
deriving DecidableEq, Repr

/-- A resolved snapshot handle; `volume_size` is its recorded volume size
(`kwargs['snapshot']['volume_size']`). -/
structure Snapshot where
  volume_size : Val
deriving DecidableEq, Repr

/-- A resolved volume handle, with the two fields the controller reads:
`size` and `replication_status`. -/
structure Volume where
  size : Val
  replication_status : Val
deriving DecidableEq, Repr

/-- A resolved consistency group handle. -/
structure CGroup where
  id : String
deriving DecidableEq, Repr

/-- An image catalog record; `id` is `Option` because the controller
explicitly tests `'id' in image` before reading it. -/
structure Image where
  id : Option String
deriving DecidableEq, Repr

/-- One call into an external collaborator, recorded in order. -/
inductive Call where
  | vtypeById : Val → Call
  | vtypeByName : Val → Call
  | getSnapshot : Val → Call
  | getVolume : Val → Call
  | getCGroup : Val → Call
  | imageShow : String → Call
  | imageDetail : String → Call
  | provCreate : Call
deriving DecidableEq, Repr

/-- Controller computations: fallible, and appending a trace of the
collaborator calls they make. -/
def M (α : Type) : Type := List Call → Except Err α × List Call

def M.pure {α : Type} (a : α) : M α := fun cs => (Except.ok a, cs)

def M.throw {α : Type} (e : Err) : M α := fun cs => (Except.error e, cs)

def M.log (c : Call) : M Unit := fun cs => (Except.ok (), cs ++ [c])

def M.bind {α β : Type} (x : M α) (f : α → M β) : M β := fun cs =>
  match x cs with
  | (Except.ok a, cs') => f a cs'
  | (Except.error e, cs') => (Except.error e, cs')

theorem M.pure_apply {α : Type} (a : α) (cs : List Call) :
    M.pure a cs = (Except.ok a, cs) := rfl

theorem M.throw_apply {α : Type} (e : Err) (cs : List Call) :
    (M.throw e : M α) cs = (Except.error e, cs) := rfl

theorem M.log_apply (c : Call) (cs : List Call) :
    M.log c cs = (Except.ok (), cs ++ [c]) := rfl

theorem M.bind_ok {α β : Type} {x : M α} {f : α → M β} {cs cs' : List Call}
    {a : α} (h : x cs = (Except.ok a, cs')) :
    M.bind x f cs = f a cs' := by
  unfold M.bind
  rw [h]

theorem M.bind_error {α β : Type} {x : M α} {f : α → M β} {cs cs' : List Call}
    {e : Err} (h : x cs = (Except.error e, cs')) :
    M.bind x f cs = (Except.error e, cs') := by
  unfold M.bind
  rw [h]

/-- Every call a computation appends to the trace satisfies `P`. -/
def M.Emits {α : Type} (P : Call → Prop) (x : M α) : Prop :=
  ∀ cs c, c ∈ (x cs).2 → c ∈ cs ∨ P c

/-- Every call appended on an erroring run satisfies `P`. -/
def M.ErrEmits {α : Type} (P : Call → Prop) (x : M α) : Prop :=
  ∀ cs e cs', x cs = (Except.error e, cs') → ∀ c ∈ cs', c ∈ cs ∨ P c

theorem M.emits_pure {α : Type} {P : Call → Prop} (a : α) :
    M.Emits P (M.pure a) := fun _ _ h => Or.inl h

theorem M.emits_throw {α : Type} {P : Call → Prop} (e : Err) :
    M.Emits P (M.throw e : M α) := fun _ _ h => Or.inl h

theorem M.emits_log {P : Call → Prop} {c0 : Call} (h : P c0) :
    M.Emits P (M.log c0) := by
  intro cs c hc
  simp only [M.log] at hc
  rcases List.mem_append.mp hc with h1 | h1
  · exact Or.inl h1
  · simp only [List.mem_singleton] at h1
    exact Or.inr (h1 ▸ h)

theorem M.emits_bind {α β : Type} {P : Call → Prop} {x : M α} {f : α → M β}
    (hx : M.Emits P x) (hf : ∀ a, M.Emits P (f a)) :
    M.Emits P (M.bind x f) := by
  intro cs c hc
  unfold M.bind at hc
  cases hxc : x cs with
  | mk r t =>
    rw [hxc] at hc
    cases r with
    | error e =>
      exact hx cs c (by rw [hxc]; exact hc)
    | ok a =>
      rcases hf a t c hc with h1 | h1
      · exact hx cs c (by rw [hxc]; exact h1)
      · exact Or.inr h1

theorem M.errEmits_of_emits {α : Type} {P : Call → Prop} {x : M α}
    (hx : M.Emits P x) : M.ErrEmits P x := by
  intro cs e cs' h c hc
  exact hx cs c (by rw [h]; exact hc)

theorem M.errEmits_bind {α β : Type} {P : Call → Prop} {x : M α} {f : α → M β}
    (hx : M.Emits P x) (hf : ∀ a, M.ErrEmits P (f a)) :
    M.ErrEmits P (M.bind x f) := by
  intro cs e cs' h c hc
  unfold M.bind at h
  cases hxc : x cs with
  | mk r t =>
    rw [hxc] at h
    cases r with
    | error e0 =>
      obtain ⟨he, ht⟩ := Prod.mk.injEq .. ▸ h
      subst ht
      exact hx cs c (by rw [hxc]; exact hc)
    | ok a =>
      rcases hf a t e cs' h c hc with h1 | h1
      · exact hx cs c (by rw [hxc]; exact h1)
      · exact Or.inr h1

/-- The external collaborators and configuration the create path
consumes, at their interface boundary: identifier well-formedness
(`oslo_utils.uuidutils.is_uuid_like`), the shared name/description
validation contract, the volume-type / snapshot / volume / consistency
group lookups (`Option.none` means the collaborator raises NotFound),
whether the `os-image-create` extension is loaded, and the image
catalog's `show` and `detail` (name-filtered) entry points, which can
fail for arbitrary reasons (`Except.error ()`). -/
structure Env where
  isUuidLike : String → Bool
  checkNameDesc : Dict → Option Err
  getVolumeTypeById : Val → Option VType
  getVolumeTypeByName : Val → Option VType
  getSnapshot : Val → Option Snapshot
  getVolume : Val → Option Volume
  getCGroup : Val → Option CGroup
  extImageCreate : Bool
  imageShow : String → Except Unit Image
  imageDetail : String → Except Unit (List Image)

/-- `is_uuid_like` applied to a dynamic value: non-strings are never
uuid-like (the library swallows the TypeError). -/
def valUuidLike (env : Env) : Val → Bool
  | Val.str s => env.isUuidLike s
  | _ => false

/-- Modelled from the spec: `validate_name_and_description`, the shared
validation contract for name/description length constraints (its code
lives outside this tree); it either passes or raises an error. -/
def checkNameDescM (env : Env) (d : Dict) : M Unit :=
  match env.checkNameDesc d with
  | Option.some e => M.throw e
  | Option.none => M.pure ()

/-- Lines 198–207: `volume_type` resolution. Attempted only when the
value is truthy; non-uuid-like values resolve by name, uuid-like ones by
id; a miss propagates NotFound. -/
def resolveVType (env : Env) (volume : Dict) : M (Option VType) :=
  if (Dict.getD volume "volume_type" Val.none).truthy then
    if valUuidLike env (Dict.getD volume "volume_type" Val.none) = false then
      M.bind (M.log (Call.vtypeByName (Dict.getD volume "volume_type" Val.none))) (fun _ =>
        match env.getVolumeTypeByName (Dict.getD volume "volume_type" Val.none) with
        | Option.some t => M.pure (Option.some t)
        | Option.none => M.throw Err.notFound)
    else
      M.bind (M.log (Call.vtypeById (Dict.getD volume "volume_type" Val.none))) (fun _ =>
        match env.getVolumeTypeById (Dict.getD volume "volume_type" Val.none) with
        | Option.some t => M.pure (Option.some t)
        | Option.none => M.throw Err.notFound)
  else
    M.pure Option.none

/-- Lines 211–217: `snapshot_id` resolution for every non-None value. -/
def resolveSnapshot (env : Env) (volume : Dict) : M (Option Snapshot) :=
  if Dict.getD volume "snapshot_id" Val.none = Val.none then
    M.pure Option.none
  else
    M.bind (M.log (Call.getSnapshot (Dict.getD volume "snapshot_id" Val.none))) (fun _ =>
      match env.getSnapshot (Dict.getD volume "snapshot_id" Val.none) with
      | Option.some s => M.pure (Option.some s)
      | Option.none => M.throw Err.notFound)

/-- Lines 219–226: `source_volid` resolution for every non-None value. -/
def resolveSourceVolume (env : Env) (volume : Dict) : M (Option Volume) :=
  if Dict.getD volume "source_volid" Val.none = Val.none then
    M.pure Option.none
  else
    M.bind (M.log (Call.getVolume (Dict.getD volume "source_volid" Val.none))) (fun _ =>
      match env.getVolume (Dict.getD volume "source_volid" Val.none) with
      | Option.some v => M.pure (Option.some v)
      | Option.none => M.throw Err.notFound)

/-- Lines 228–239: `source_replica` resolution for every non-None value,
then the replication-status check: `replication_status == 'disabled'`
raises HTTPBadRequest with the not-replicated explanation. -/
def resolveSourceReplica (env : Env) (volume : Dict) : M (Option Volume) :=
  if Dict.getD volume "source_replica" Val.none = Val.none then
    M.pure Option.none
  else
    M.bind (M.log (Call.getVolume (Dict.getD volume "source_replica" Val.none))) (fun _ =>
      match env.getVolume (Dict.getD volume "source_replica" Val.none) with
      | Option.some src_vol =>
        if src_vol.replication_status = Val.str "disabled" then
          M.throw (Err.badRequest
            ("source volume id:" ++ (Dict.getD volume "source_replica" Val.none).pyStr ++
              " is not replicated"))
        else
          M.pure (Option.some src_vol)
      | Option.none => M.throw Err.notFound)

/-- Lines 241–248: `consistencygroup_id` resolution for every non-None
value. -/
def resolveCGroup (env : Env) (volume : Dict) : M (Option CGroup) :=
  if Dict.getD volume "consistencygroup_id" Val.none = Val.none then
    M.pure Option.none
  else
    M.bind (M.log (Call.getCGroup (Dict.getD volume "consistencygroup_id" Val.none))) (fun _ =>
      match env.getCGroup (Dict.getD volume "consistencygroup_id" Val.none) with
      | Option.some g => M.pure (Option.some g)
      | Option.none => M.throw Err.notFound)

/-- Lines 250–256: derive the size when the client omitted it, in the
source's `elif` cascade: snapshot's recorded volume size, else source
volume's size, else source replica's size, else it stays None. -/
def deriveSize (size : Val) (snapshot : Option Snapshot)
    (source_volume source_replica : Option Volume) : Val :=
  if size = Val.none then
    match snapshot with
    | Option.some sn => sn.volume_size
    | Option.none =>
      match source_volume with
      | Option.some sv => sv.size
      | Option.none =>
        match source_replica with
        | Option.some sr => sr.size
        | Option.none => Val.none
  else size

/-- The explanation of the final HTTPBadRequest in
`_image_uuid_from_ref`. -/
def invalidImageMsg : String :=
  "Invalid image identifier or unable to access requested image."

/-- Characters of the current segment after the most recent slash. -/
def lastCompAux : List Char → List Char → List Char
  | [], acc => acc
  | c :: rest, acc =>
    if c = '/' then lastCompAux rest [] else lastCompAux rest (acc ++ [c])

/-- `image_ref.split('/').pop()`: nova-style URL stripping down to the
substring after the last `/` (the whole string when it has none). -/
def lastComp (s : String) : String := String.mk (lastCompAux s.data [])

/-- Lines 130–171, `VolumeController._image_uuid_from_ref`: non-strings
fail the split with AttributeError → HTTPBadRequest; a uuid-like last
path component is first looked up directly by id (any failure, and a
record lacking `id`, silently falls through); then an exact-name catalog
search on the whole original reference decides between one match (its
id), several (HTTPConflict) and none or any other failure
(HTTPBadRequest). -/
def imageUuidFromRef (env : Env) (image_ref : Val) : M String :=
  match image_ref with
  | Val.str s =>
    let image_uuid := lastComp s
    M.bind
      (if env.isUuidLike image_uuid then
        M.bind (M.log (Call.imageShow image_uuid)) (fun _ =>
          match env.imageShow image_uuid with
          | Except.ok img => M.pure img.id
          | Except.error _ => M.pure Option.none)
      else
        M.pure Option.none)
      (fun found =>
        match found with
        | Option.some i => M.pure i
        | Option.none =>
          M.bind (M.log (Call.imageDetail s)) (fun _ =>
            match env.imageDetail s with
            | Except.error _ => M.throw (Err.badRequest invalidImageMsg)
            | Except.ok images =>
              if images.length > 1 then
                M.throw (Err.conflict ("Multiple matches found for '" ++ s ++
                  "', use an ID to be more specific."))
              else
                match images with
                | [] => M.throw (Err.badRequest invalidImageMsg)
                | img :: _ =>
                  match img.id with
                  | Option.some i => M.pure i
                  | Option.none => M.throw (Err.badRequest invalidImageMsg)))
  | _ => M.throw (Err.badRequest "Invalid imageRef provided.")

/-- Lines 260–264: image resolution runs only when the
`os-image-create` extension is loaded and `imageRef` is non-None. -/
def resolveImage (env : Env) (volume : Dict) : M (Option String) :=
  if env.extImageCreate then
    if Dict.getD volume "imageRef" Val.none = Val.none then
      M.pure Option.none
    else
      M.bind (imageUuidFromRef env (Dict.getD volume "imageRef" Val.none)) (fun u =>
        M.pure (Option.some u))
  else
    M.pure Option.none

/-- The command assembled for the provisioning collaborator: the
`kwargs` of `volume_api.create` together with the positional size, name
and description arguments. `volume_type = Option.none` stands for the
key being left out of `kwargs` entirely. -/
structure CreateCmd where
  volume_type : Option VType
  metadata : Val
  snapshot : Option Snapshot
  source_volume : Option Volume
  source_replica : Option Volume
  consistencygroup : Option CGroup
  image_id : Option String
  availability_zone : Val
  scheduler_hints : Val
  multiattach : Val
  size : Val
  display_name : Val
  display_description : Val
deriving DecidableEq, Repr

/-- Assembly of the provisioning command from the normalized request
mapping and the resolved references (lines 209, 250–256, 266–275). -/
def mkCreateCmd (volume : Dict) (vt : Option VType) (snap : Option Snapshot)
    (sv sr : Option Volume) (cg : Option CGroup) (img : Option String) :
    CreateCmd where
  volume_type := vt
  metadata := Dict.getD volume "metadata" Val.none
  snapshot := snap
  source_volume := sv
  source_replica := sr
  consistencygroup := cg
  image_id := img
  availability_zone := Dict.getD volume "availability_zone" Val.none
  scheduler_hints := Dict.getD volume "scheduler_hints" Val.none
  multiattach := Dict.getD volume "multiattach" (Val.bool false)
  size := deriveSize (Dict.getD volume "size" Val.none) snap sv sr
  display_name := Dict.getD volume "display_name" Val.none
  display_description := Dict.getD volume "display_description" Val.none

/-- The create pipeline after validation and normalization: reference
resolution in source order (lines 198–248), size derivation (250–256),
conditional image resolution (260–264), then the single provisioning
call (`Call.provCreate`, line 271) with the assembled command. -/
def createBody (env : Env) (volume : Dict) : M CreateCmd :=
  M.bind (resolveVType env volume) (fun vt =>
    M.bind (resolveSnapshot env volume) (fun snap =>
      M.bind (resolveSourceVolume env volume) (fun sv =>
        M.bind (resolveSourceReplica env volume) (fun sr =>
          M.bind (resolveCGroup env volume) (fun cg =>
            M.bind (resolveImage env volume) (fun img =>
              M.bind (M.log Call.provCreate) (fun _ =>
                M.pure (mkCreateCmd volume vt snap sv sr cg img))))))))

/-- Lines 174–279, `VolumeController.create` on the request's `volume`
mapping: name/description validation, field normalization, then the
resolution/assembly/provisioning pipeline. -/
def create (env : Env) (vol0 : Dict) : M CreateCmd :=
  M.bind (checkNameDescM env vol0) (fun _ =>
    createBody env (normalizeFields vol0))

theorem create_of_check_ok {env : Env} {vol0 : Dict}
    (h0 : env.checkNameDesc vol0 = Option.none) (cs : List Call) :
    create env vol0 cs = createBody env (normalizeFields vol0) cs := by
  unfold create
  have hc : checkNameDescM env vol0 cs = (Except.ok (), cs) := by
    simp [checkNameDescM, h0, M.pure]
  rw [M.bind_ok hc]

theorem create_of_check_err {env : Env} {vol0 : Dict} {e : Err}
    (h0 : env.checkNameDesc vol0 = Option.some e) (cs : List Call) :
    create env vol0 cs = (Except.error e, cs) := by
  unfold create
  have hc : checkNameDescM env vol0 cs = (Except.error e, cs) := by
    simp [checkNameDescM, h0, M.throw]
  rw [M.bind_error hc]

theorem resolveVType_not_truthy {env : Env} {volume : Dict}
    (h : (Dict.getD volume "volume_type" Val.none).truthy = false)
    (cs : List Call) :
    resolveVType env volume cs = (Except.ok Option.none, cs) := by
  unfold resolveVType
  simp [h, M.pure]

theorem resolveVType_byName {env : Env} {volume : Dict} {req : Val}
    (hreq : Dict.getD volume "volume_type" Val.none = req)
    (ht : req.truthy = true) (hu : valUuidLike env req = false)
    (cs : List Call) :
    resolveVType env volume cs =
      (match env.getVolumeTypeByName req with
        | Option.some t => (Except.ok (Option.some t), cs ++ [Call.vtypeByName req])
        | Option.none => (Except.error Err.notFound, cs ++ [Call.vtypeByName req])) := by
  unfold resolveVType
  rw [hreq]
  cases hv : env.getVolumeTypeByName req <;>
    simp [ht, hu, hv, M.bind, M.log, M.pure, M.throw]

theorem resolveVType_byId {env : Env} {volume : Dict} {req : Val}
    (hreq : Dict.getD volume "volume_type" Val.none = req)
    (ht : req.truthy = true) (hu : valUuidLike env req = true)
    (cs : List Call) :
    resolveVType env volume cs =
      (match env.getVolumeTypeById req with
        | Option.some t => (Except.ok (Option.some t), cs ++ [Call.vtypeById req])
        | Option.none => (Except.error Err.notFound, cs ++ [Call.vtypeById req])) := by
  unfold resolveVType
  rw [hreq]
  cases hv : env.getVolumeTypeById req <;>
    simp [ht, hu, hv, M.bind, M.log, M.pure, M.throw]

theorem resolveSnapshot_absent {env : Env} {volume : Dict}
    (h : Dict.getD volume "snapshot_id" Val.none = Val.none) (cs : List Call) :
    resolveSnapshot env volume cs = (Except.ok Option.none, cs) := by
  unfold resolveSnapshot
  simp [h, M.pure]

theorem resolveSnapshot_hit {env : Env} {volume : Dict} {v : Val} {s : Snapshot}
    (hv : Dict.getD volume "snapshot_id" Val.none = v) (hne : v ≠ Val.none)
    (hl : env.getSnapshot v = Option.some s) (cs : List Call) :
    resolveSnapshot env volume cs =
      (Except.ok (Option.some s), cs ++ [Call.getSnapshot v]) := by
  unfold resolveSnapshot
  rw [hv]
  simp [hne, hl, M.bind, M.log, M.pure]

theorem resolveSnapshot_miss {env : Env} {volume : Dict} {v : Val}
    (hv : Dict.getD volume "snapshot_id" Val.none = v) (hne : v ≠ Val.none)
    (hl : env.getSnapshot v = Option.none) (cs : List Call) :
    resolveSnapshot env volume cs =
      (Except.error Err.notFound, cs ++ [Call.getSnapshot v]) := by
  unfold resolveSnapshot
  rw [hv]
  simp [hne, hl, M.bind, M.log, M.throw]

theorem resolveSourceVolume_absent {env : Env} {volume : Dict}
    (h : Dict.getD volume "source_volid" Val.none = Val.none) (cs : List Call) :
    resolveSourceVolume env volume cs = (Except.ok Option.none, cs) := by
  unfold resolveSourceVolume
  simp [h, M.pure]

theorem resolveSourceVolume_hit {env : Env} {volume : Dict} {v : Val} {w : Volume}
    (hv : Dict.getD volume "source_volid" Val.none = v) (hne : v ≠ Val.none)
    (hl : env.getVolume v = Option.some w) (cs : List Call) :
    resolveSourceVolume env volume cs =
      (Except.ok (Option.some w), cs ++ [Call.getVolume v]) := by
  unfold resolveSourceVolume
  rw [hv]
  simp [hne, hl, M.bind, M.log, M.pure]

theorem resolveSourceReplica_absent {env : Env} {volume : Dict}
    (h : Dict.getD volume "source_replica" Val.none = Val.none) (cs : List Call) :
    resolveSourceReplica env volume cs = (Except.ok Option.none, cs) := by
  unfold resolveSourceReplica
  simp [h, M.pure]

theorem resolveSourceReplica_disabled {env : Env} {volume : Dict} {v : Val}
    {w : Volume}
    (hv : Dict.getD volume "source_replica" Val.none = v) (hne : v ≠ Val.none)
    (hl : env.getVolume v = Option.some w)
    (hd : w.replication_status = Val.str "disabled") (cs : List Call) :
    resolveSourceReplica env volume cs =
      (Except.error (Err.badRequest
          ("source volume id:" ++ v.pyStr ++ " is not replicated")),
        cs ++ [Call.getVolume v]) := by
  unfold resolveSourceReplica
  rw [hv]
  simp [hne, hl, hd, M.bind, M.log, M.throw]

theorem resolveSourceReplica_ok {env : Env} {volume : Dict} {v : Val} {w : Volume}
    (hv : Dict.getD volume "source_replica" Val.none = v) (hne : v ≠ Val.none)
    (hl : env.getVolume v = Option.some w)
    (hd : w.replication_status ≠ Val.str "disabled") (cs : List Call) :
    resolveSourceReplica env volume cs =
      (Except.ok (Option.some w), cs ++ [Call.getVolume v]) := by
  unfold resolveSourceReplica
  rw [hv]
  simp [hne, hl, hd, M.bind, M.log, M.pure]

theorem resolveCGroup_absent {env : Env} {volume : Dict}
    (h : Dict.getD volume "consistencygroup_id" Val.none = Val.none)
    (cs : List Call) :
    resolveCGroup env volume cs = (Except.ok Option.none, cs) := by
  unfold resolveCGroup
  simp [h, M.pure]

theorem resolveCGroup_hit {env : Env} {volume : Dict} {v : Val} {g : CGroup}
    (hv : Dict.getD volume "consistencygroup_id" Val.none = v) (hne : v ≠ Val.none)
    (hl : env.getCGroup v = Option.some g) (cs : List Call) :
    resolveCGroup env volume cs =
      (Except.ok (Option.some g), cs ++ [Call.getCGroup v]) := by
  unfold resolveCGroup
  rw [hv]
  simp [hne, hl, M.bind, M.log, M.pure]

theorem resolveImage_off {env : Env} {volume : Dict}
    (h : env.extImageCreate = false) (cs : List Call) :
    resolveImage env volume cs = (Except.ok Option.none, cs) := by
  unfold resolveImage
  simp [h, M.pure]

theorem createBody_steps {env : Env} {volume : Dict} {vt : Option VType}
    {snap : Option Snapshot} {sv sr : Option Volume} {cg : Option CGroup}
    {img : Option String} {cs cs1 cs2 cs3 cs4 cs5 cs6 : List Call}
    (h1 : resolveVType env volume cs = (Except.ok vt, cs1))
    (h2 : resolveSnapshot env volume cs1 = (Except.ok snap, cs2))
    (h3 : resolveSourceVolume env volume cs2 = (Except.ok sv, cs3))
    (h4 : resolveSourceReplica env volume cs3 = (Except.ok sr, cs4))
    (h5 : resolveCGroup env volume cs4 = (Except.ok cg, cs5))
    (h6 : resolveImage env volume cs5 = (Except.ok img, cs6)) :
    createBody env volume cs =
      (Except.ok (mkCreateCmd volume vt snap sv sr cg img),
        cs6 ++ [Call.provCreate]) := by
  unfold createBody
  simp only [M.bind_ok h1, M.bind_ok h2, M.bind_ok h3, M.bind_ok h4,
    M.bind_ok h5, M.bind_ok h6]
  rfl

theorem createBody_vt_error {env : Env} {volume : Dict} {e : Err}
    {cs cs1 : List Call}
    (h1 : resolveVType env volume cs = (Except.error e, cs1)) :
    createBody env volume cs = (Except.error e, cs1) := by
  unfold createBody
  rw [M.bind_error h1]

theorem createBody_snap_error {env : Env} {volume : Dict} {vt : Option VType}
    {e : Err} {cs cs1 cs2 : List Call}
    (h1 : resolveVType env volume cs = (Except.ok vt, cs1))
    (h2 : resolveSnapshot env volume cs1 = (Except.error e, cs2)) :
    createBody env volume cs = (Except.error e, cs2) := by
  unfold createBody
  simp only [M.bind_ok h1]
  rw [M.bind_error h2]

/-- Decomposition of a successful `create` run into its stages. -/
theorem create_ok_elim {env : Env} {vol0 : Dict} {cs : List Call}
    {cmd : CreateCmd} {cs' : List Call}
    (h : create env vol0 cs = (Except.ok cmd, cs')) :
    env.checkNameDesc vol0 = Option.none ∧
    ∃ vt snap sv sr cg img cs1 cs2 cs3 cs4 cs5 cs6,
      resolveVType env (normalizeFields vol0) cs = (Except.ok vt, cs1) ∧
      resolveSnapshot env (normalizeFields vol0) cs1 = (Except.ok snap, cs2) ∧
      resolveSourceVolume env (normalizeFields vol0) cs2 = (Except.ok sv, cs3) ∧
      resolveSourceReplica env (normalizeFields vol0) cs3 = (Except.ok sr, cs4) ∧
      resolveCGroup env (normalizeFields vol0) cs4 = (Except.ok cg, cs5) ∧
      resolveImage env (normalizeFields vol0) cs5 = (Except.ok img, cs6) ∧
      cs' = cs6 ++ [Call.provCreate] ∧
      cmd = mkCreateCmd (normalizeFields vol0) vt snap sv sr cg img := by
  cases h0 : env.checkNameDesc vol0 with
  | some e =>
    rw [create_of_check_err h0] at h
    exact absurd h (by simp)
  | none =>
    rw [create_of_check_ok h0] at h
    refine ⟨rfl, ?_⟩
    unfold createBody at h
    cases hr1 : resolveVType env (normalizeFields vol0) cs with
    | mk r1 t1 =>
      cases r1 with
      | error e => rw [M.bind_error hr1] at h; exact absurd h (by simp)
      | ok vt =>
        simp only [M.bind_ok hr1] at h
        cases hr2 : resolveSnapshot env (normalizeFields vol0) t1 with
        | mk r2 t2 =>
          cases r2 with
          | error e => rw [M.bind_error hr2] at h; exact absurd h (by simp)
          | ok snap =>
            simp only [M.bind_ok hr2] at h
            cases hr3 : resolveSourceVolume env (normalizeFields vol0) t2 with
            | mk r3 t3 =>
              cases r3 with
              | error e => rw [M.bind_error hr3] at h; exact absurd h (by simp)
              | ok sv =>
                simp only [M.bind_ok hr3] at h
                cases hr4 : resolveSourceReplica env (normalizeFields vol0) t3 with
                | mk r4 t4 =>
                  cases r4 with
                  | error e => rw [M.bind_error hr4] at h; exact absurd h (by simp)
                  | ok sr =>
                    simp only [M.bind_ok hr4] at h
                    cases hr5 : resolveCGroup env (normalizeFields vol0) t4 with
                    | mk r5 t5 =>
                      cases r5 with
                      | error e => rw [M.bind_error hr5] at h; exact absurd h (by simp)
                      | ok cg =>
                        simp only [M.bind_ok hr5] at h
                        cases hr6 : resolveImage env (normalizeFields vol0) t5 with
                        | mk r6 t6 =>
                          cases r6 with
                          | error e =>
                            rw [M.bind_error hr6] at h
                            exact absurd h (by simp)
                          | ok img =>
                            simp only [M.bind_ok hr6] at h
                            simp only [M.bind, M.log, M.pure, Prod.mk.injEq,
                              Except.ok.injEq] at h
                            exact ⟨vt, snap, sv, sr, cg, img, t1, t2, t3, t4,
                              t5, t6, rfl, hr2, hr3, hr4, hr5, hr6,
                              h.2.symm, h.1.symm⟩

theorem checkNameDescM_emits {P : Call → Prop} (env : Env) (d : Dict) :
    M.Emits P (checkNameDescM env d) := by
  unfold checkNameDescM
  split
  · exact M.emits_throw _
  · exact M.emits_pure _

theorem resolveVType_emits {P : Call → Prop} (env : Env) (volume : Dict)
    (hPn : ∀ v, P (Call.vtypeByName v)) (hPi : ∀ v, P (Call.vtypeById v)) :
    M.Emits P (resolveVType env volume) := by
  unfold resolveVType
  split
  · split
    · refine M.emits_bind (M.emits_log (hPn _)) (fun _ => ?_)
      split
      · exact M.emits_pure _
      · exact M.emits_throw _
    · refine M.emits_bind (M.emits_log (hPi _)) (fun _ => ?_)
      split
      · exact M.emits_pure _
      · exact M.emits_throw _
  · exact M.emits_pure _

theorem resolveSnapshot_emits {P : Call → Prop} (env : Env) (volume : Dict)
    (hP : ∀ v, P (Call.getSnapshot v)) :
    M.Emits P (resolveSnapshot env volume) := by
  unfold resolveSnapshot
  split
  · exact M.emits_pure _
  · refine M.emits_bind (M.emits_log (hP _)) (fun _ => ?_)
    split
    · exact M.emits_pure _
    · exact M.emits_throw _

theorem resolveSourceVolume_emits {P : Call → Prop} (env : Env) (volume : Dict)
    (hP : ∀ v, P (Call.getVolume v)) :
    M.Emits P (resolveSourceVolume env volume) := by
  unfold resolveSourceVolume
  split
  · exact M.emits_pure _
  · refine M.emits_bind (M.emits_log (hP _)) (fun _ => ?_)
    split
    · exact M.emits_pure _
    · exact M.emits_throw _

theorem resolveSourceReplica_emits {P : Call → Prop} (env : Env) (volume : Dict)
    (hP : ∀ v, P (Call.getVolume v)) :
    M.Emits P (resolveSourceReplica env volume) := by
  unfold resolveSourceReplica
  split
  · exact M.emits_pure _
  · refine M.emits_bind (M.emits_log (hP _)) (fun _ => ?_)
    split
    · split
      · exact M.emits_throw _
      · exact M.emits_pure _
    · exact M.emits_throw _

theorem resolveCGroup_emits {P : Call → Prop} (env : Env) (volume : Dict)
    (hP : ∀ v, P (Call.getCGroup v)) :
    M.Emits P (resolveCGroup env volume) := by
  unfold resolveCGroup
  split
  · exact M.emits_pure _
  · refine M.emits_bind (M.emits_log (hP _)) (fun _ => ?_)
    split
    · exact M.emits_pure _
    · exact M.emits_throw _

theorem imageUuidFromRef_emits {P : Call → Prop} (env : Env) (r : Val)
    (hPs : ∀ s, P (Call.imageShow s)) (hPd : ∀ s, P (Call.imageDetail s)) :
    M.Emits P (imageUuidFromRef env r) := by
  cases r with
  | str s =>
    unfold imageUuidFromRef
    refine M.emits_bind ?_ (fun found => ?_)
    · split
      · refine M.emits_bind (M.emits_log (hPs _)) (fun _ => ?_)
        split
        · exact M.emits_pure _
        · exact M.emits_pure _
      · exact M.emits_pure _
    · split
      · exact M.emits_pure _
      · refine M.emits_bind (M.emits_log (hPd _)) (fun _ => ?_)
        split
        · exact M.emits_throw _
        · split
          · exact M.emits_throw _
          · split
            · exact M.emits_throw _
            · split
              · exact M.emits_pure _
              · exact M.emits_throw _
  | none => exact M.emits_throw _
  | int n => exact M.emits_throw _
  | bool b => exact M.emits_throw _

theorem resolveImage_emits {P : Call → Prop} (env : Env) (volume : Dict)
    (hPs : ∀ s, P (Call.imageShow s)) (hPd : ∀ s, P (Call.imageDetail s)) :
    M.Emits P (resolveImage env volume) := by
  unfold resolveImage
  split
  · split
    · exact M.emits_pure _
    · exact M.emits_bind (imageUuidFromRef_emits env _ hPs hPd)
        (fun u => M.emits_pure _)
  · exact M.emits_pure _

theorem provTail_errEmits {P : Call → Prop} {volume : Dict} {vt : Option VType}
    {snap : Option Snapshot} {sv sr : Option Volume} {cg : Option CGroup}
    {img : Option String} :
    M.ErrEmits P (M.bind (M.log Call.provCreate)
      (fun _ => M.pure (mkCreateCmd volume vt snap sv sr cg img))) := by
  intro cs e cs' h
  simp [M.bind, M.log, M.pure] at h

theorem createBody_errEmits (env : Env) (volume : Dict) :
    M.ErrEmits (fun c => c ≠ Call.provCreate) (createBody env volume) := by
  unfold createBody
  refine M.errEmits_bind
    (resolveVType_emits env volume (fun v => by simp) (fun v => by simp))
    (fun vt => ?_)
  refine M.errEmits_bind (resolveSnapshot_emits env volume (fun v => by simp))
    (fun snap => ?_)
  refine M.errEmits_bind (resolveSourceVolume_emits env volume (fun v => by simp))
    (fun sv => ?_)
  refine M.errEmits_bind (resolveSourceReplica_emits env volume (fun v => by simp))
    (fun sr => ?_)
  refine M.errEmits_bind (resolveCGroup_emits env volume (fun v => by simp))
    (fun cg => ?_)
  refine M.errEmits_bind
    (resolveImage_emits env volume (fun s => by simp) (fun s => by simp))
    (fun img => ?_)
  exact provTail_errEmits

theorem create_errEmits (env : Env) (vol0 : Dict) :
    M.ErrEmits (fun c => c ≠ Call.provCreate) (create env vol0) := by
  unfold create
  exact M.errEmits_bind (checkNameDescM_emits env vol0)
    (fun _ => createBody_errEmits env (normalizeFields vol0))

/-- When the requested volume type is falsy no volume-type lookup call
can appear in the trace of any `create` run. -/
theorem create_emits_no_vtype (env : Env) (vol0 : Dict)
    (h : (Dict.getD (normalizeFields vol0) "volume_type" Val.none).truthy = false) :
    M.Emits (fun c => ∀ w, c ≠ Call.vtypeById w ∧ c ≠ Call.vtypeByName w)
      (create env vol0) := by
  unfold create
  refine M.emits_bind (checkNameDescM_emits env vol0) (fun _ => ?_)
  unfold createBody
  refine M.emits_bind ?_ (fun vt => ?_)
  · intro cs c hc
    rw [resolveVType_not_truthy h cs] at hc
    exact Or.inl hc
  · refine M.emits_bind (resolveSnapshot_emits env _ (fun v => by simp))
      (fun snap => ?_)
    refine M.emits_bind (resolveSourceVolume_emits env _ (fun v => by simp))
      (fun sv => ?_)
    refine M.emits_bind (resolveSourceReplica_emits env _ (fun v => by simp))
      (fun sr => ?_)
    refine M.emits_bind (resolveCGroup_emits env _ (fun v => by simp))
      (fun cg => ?_)
    refine M.emits_bind
      (resolveImage_emits env _ (fun s => by simp) (fun s => by simp))
      (fun img => ?_)
    exact M.emits_bind (M.emits_log (by simp)) (fun _ => M.emits_pure _)

/-- A minimal concrete environment: validation passes, every lookup
misses, the image-create extension is off. -/
def envOk : Env where
  isUuidLike := fun _ => false
  checkNameDesc := fun _ => Option.none
  getVolumeTypeById := fun _ => Option.none
  getVolumeTypeByName := fun _ => Option.none
  getSnapshot := fun _ => Option.none
  getVolume := fun _ => Option.none
  getCGroup := fun _ => Option.none
  extImageCreate := false
  imageShow := fun _ => Except.error ()
  imageDetail := fun _ => Except.error ()

/-- C1: for a successful create, the size in the assembled command is
the client-supplied size verbatim when one was given; when the request
omitted size (None), it is derived in strict priority from the resolved
snapshot's recorded volume size, else the resolved source volume's size,
else the resolved source replica's size, else it remains None and is
passed through to the provisioning collaborator unrejected. -/
theorem create_size_priority (env : Env) (vol0 : Dict) (cmd : CreateCmd)
    (cs' : List Call) (h : create env vol0 [] = (Except.ok cmd, cs')) :
    (∀ v : Val, Dict.getD (normalizeFields vol0) "size" Val.none = v →
      v ≠ Val.none → cmd.size = v) ∧
    (Dict.getD (normalizeFields vol0) "size" Val.none = Val.none →
      cmd.size =
        (match cmd.snapshot with
          | Option.some sn => sn.volume_size
          | Option.none =>
            match cmd.source_volume with
            | Option.some sv => sv.size
            | Option.none =>
              match cmd.source_replica with
              | Option.some sr => sr.size
              | Option.none => Val.none)) := by
  obtain ⟨-, vt, snap, sv, sr, cg, img, t1, t2, t3, t4, t5, t6, h1, h2, h3,
    h4, h5, h6, hcs, hcmd⟩ := create_ok_elim h
  subst hcmd
  constructor
  · intro v hv hne
    simp only [mkCreateCmd]
    rw [hv]
    unfold deriveSize
    simp [hne]
  · intro hv
    simp only [mkCreateCmd]
    rw [hv]
    unfold deriveSize
    simp

theorem create_size_priority_witness :
    (mkCreateCmd [("size", Val.int 5)] Option.none Option.none Option.none
      Option.none Option.none Option.none).size = Val.int 5 :=
  (create_size_priority envOk [("size", Val.int 5)]
    (mkCreateCmd [("size", Val.int 5)] Option.none Option.none Option.none
      Option.none Option.none Option.none)
    [Call.provCreate] (by rfl)).1 (Val.int 5) (by decide) (by decide)

/-- C4: if any resolution or validation step of the create operation
fails, the provisioning collaborator's create entry point is never
invoked: an erroring run's trace contains no `Call.provCreate`. -/
theorem create_no_provision_on_failure (env : Env) (vol0 : Dict) (e : Err)
    (cs' : List Call) (h : create env vol0 [] = (Except.error e, cs')) :
    Call.provCreate ∉ cs' := by
  intro hmem
  rcases create_errEmits env vol0 [] e cs' h Call.provCreate hmem with h1 | h1
  · exact absurd h1 (List.not_mem_nil _)
  · exact h1 rfl

theorem create_no_provision_on_failure_witness :
    Call.provCreate ∉ [Call.getSnapshot (Val.str "S1")] :=
  create_no_provision_on_failure envOk [("snapshot_id", Val.str "S1")]
    Err.notFound [Call.getSnapshot (Val.str "S1")] (by rfl)

/-- An environment whose volume lookup always resolves to a volume with
replication disabled. -/
def envRepl : Env :=
  { envOk with getVolume := fun _ => Option.some ⟨Val.int 7, Val.str "disabled"⟩ }

/-- C3: with a non-None `source_replica` whose referenced volume
resolves, the source-replica stage fails with the 400 invalid-input
error carrying the not-replicated message exactly when the resolved
volume's `replication_status` is `"disabled"`; for any other status a
successful create carries the resolved volume as the command's source
replica (and the status is necessarily not `"disabled"`). -/
theorem create_source_replica_check (env : Env) (vol0 : Dict) (v : Val)
    (srcvol : Volume)
    (hv : Dict.getD (normalizeFields vol0) "source_replica" Val.none = v)
    (hne : v ≠ Val.none) (hl : env.getVolume v = Option.some srcvol) :
    (∀ cs, (resolveSourceReplica env (normalizeFields vol0) cs).1 =
        Except.error (Err.badRequest
          ("source volume id:" ++ v.pyStr ++ " is not replicated")) ↔
      srcvol.replication_status = Val.str "disabled") ∧
    (∀ cmd cs', create env vol0 [] = (Except.ok cmd, cs') →
      srcvol.replication_status ≠ Val.str "disabled" ∧
      cmd.source_replica = Option.some srcvol) := by
  constructor
  · intro cs
    constructor
    · intro herr
      by_contra hd
      rw [resolveSourceReplica_ok hv hne hl hd cs] at herr
      exact absurd herr (by simp)
    · intro hd
      rw [resolveSourceReplica_disabled hv hne hl hd cs]
  · intro cmd cs' h
    obtain ⟨-, vt, snap, sv, sr, cg, img, t1, t2, t3, t4, t5, t6, h1, h2, h3,
      h4, h5, h6, hcs, hcmd⟩ := create_ok_elim h
    by_cases hd : srcvol.replication_status = Val.str "disabled"
    · rw [resolveSourceReplica_disabled hv hne hl hd t3] at h4
      exact absurd h4 (by simp)
    · rw [resolveSourceReplica_ok hv hne hl hd t3] at h4
      have hsr : Option.some srcvol = sr := by
        have h4' := h4
        simp only [Prod.mk.injEq, Except.ok.injEq] at h4'
        exact h4'.1
      subst hcmd
      exact ⟨hd, by simp [mkCreateCmd, hsr.symm]⟩

theorem create_source_replica_check_witness :
    (resolveSourceReplica envRepl
        (normalizeFields [("source_replica", Val.str "R1")]) []).1 =
      Except.error (Err.badRequest
        ("source volume id:" ++ (Val.str "R1").pyStr ++ " is not replicated")) :=
  ((create_source_replica_check envRepl [("source_replica", Val.str "R1")]
      (Val.str "R1") ⟨Val.int 7, Val.str "disabled"⟩ (by decide) (by decide)
      (by decide)).1 []).mpr (by decide)

/-- An environment resolving the volume type named `"gold"`. -/
def envVt : Env :=
  { envOk with
    getVolumeTypeByName := fun v =>
      if v = Val.str "gold" then Option.some ⟨"VT1"⟩ else Option.none }

/-- The command a create with only `volume_type = "gold"` assembles in
`envVt`. -/
def cmdVt : CreateCmd :=
  mkCreateCmd [("volume_type", Val.str "gold")] (Option.some ⟨"VT1"⟩)
    Option.none Option.none Option.none Option.none Option.none

/-- C8: a truthy `volume_type` value is resolved by id when it is
uuid-like and by name otherwise; a successful create carries the
resolved type in the assembled command, and (validation passing) a miss
of the chosen lookup makes the whole create fail with NotFound. -/
theorem create_volume_type_resolution (env : Env) (vol0 : Dict) (req : Val)
    (hreq : Dict.getD (normalizeFields vol0) "volume_type" Val.none = req)
    (htr : req.truthy = true) :
    (∀ cmd cs', create env vol0 [] = (Except.ok cmd, cs') →
      ∃ t, (if valUuidLike env req = true
            then env.getVolumeTypeById req = Option.some t
            else env.getVolumeTypeByName req = Option.some t) ∧
        cmd.volume_type = Option.some t) ∧
    (env.checkNameDesc vol0 = Option.none →
      (if valUuidLike env req = true then env.getVolumeTypeById req
       else env.getVolumeTypeByName req) = Option.none →
      (create env vol0 []).1 = Except.error Err.notFound) := by
  constructor
  · intro cmd cs' h
    obtain ⟨-, vt, snap, sv, sr, cg, img, t1, t2, t3, t4, t5, t6, h1, h2, h3,
      h4, h5, h6, hcs, hcmd⟩ := create_ok_elim h
    subst hcmd
    cases hu : valUuidLike env req with
    | true =>
      rw [resolveVType_byId hreq htr hu []] at h1
      cases hby : env.getVolumeTypeById req with
      | none => rw [hby] at h1; exact absurd h1 (by simp)
      | some t =>
        rw [hby] at h1
        have h1' := h1
        simp only [Prod.mk.injEq, Except.ok.injEq] at h1'
        exact ⟨t, by simp [hu, hby],
          by simp [mkCreateCmd, h1'.1.symm]⟩
    | false =>
      rw [resolveVType_byName hreq htr hu []] at h1
      cases hby : env.getVolumeTypeByName req with
      | none => rw [hby] at h1; exact absurd h1 (by simp)
      | some t =>
        rw [hby] at h1
        have h1' := h1
        simp only [Prod.mk.injEq, Except.ok.injEq] at h1'
        exact ⟨t, by simp [hu, hby],
          by simp [mkCreateCmd, h1'.1.symm]⟩
  · intro hchk hnone
    rw [create_of_check_ok hchk]
    cases hu : valUuidLike env req with
    | true =>
      simp only [hu, if_true] at hnone
      have h1 := resolveVType_byId hreq htr hu ([] : List Call)
      simp only [hnone] at h1
      rw [createBody_vt_error h1]
    | false =>
      simp only [hu, Bool.false_eq_true, if_false] at hnone
      have h1 := resolveVType_byName hreq htr hu ([] : List Call)
      simp only [hnone] at h1
      rw [createBody_vt_error h1]

theorem create_volume_type_resolution_witness :
    ∃ t, (if valUuidLike envVt (Val.str "gold") = true
          then envVt.getVolumeTypeById (Val.str "gold") = Option.some t
          else envVt.getVolumeTypeByName (Val.str "gold") = Option.some t) ∧
      cmdVt.volume_type = Option.some t :=
  (create_volume_type_resolution envVt [("volume_type", Val.str "gold")]
    (Val.str "gold") (by decide) (by decide)).1 cmdVt
    [Call.vtypeByName (Val.str "gold"), Call.provCreate] (by rfl)

/-- An environment in which the empty-string lookups of C9 all hit. -/
def envHits : Env :=
  { envOk with
    getSnapshot := fun _ => Option.some ⟨Val.int 10⟩
    getVolume := fun _ => Option.some ⟨Val.int 7, Val.str "enabled"⟩
    getCGroup := fun _ => Option.some ⟨"CG1"⟩ }

/-- C9: presence tests in create are asymmetric. A falsy `volume_type`
(None, empty string, 0) is treated as absent: no volume-type lookup call
ever appears in the trace and a successful command carries no volume
type. The id references are instead resolved for every non-None value:
an empty-string `snapshot_id` triggers a snapshot lookup whose miss
fails the create with NotFound, and empty-string values for
`snapshot_id`, `source_volid`, `source_replica` and
`consistencygroup_id` all trigger their lookup calls. -/
theorem create_presence_asymmetry :
    (∀ (env : Env) (vol0 : Dict),
      (Dict.getD (normalizeFields vol0) "volume_type" Val.none).truthy = false →
      (∀ cmd cs', create env vol0 [] = (Except.ok cmd, cs') →
        cmd.volume_type = Option.none) ∧
      (∀ c, c ∈ (create env vol0 []).2 →
        ∀ w, c ≠ Call.vtypeById w ∧ c ≠ Call.vtypeByName w)) ∧
    (∀ (env : Env) (vol0 : Dict),
      env.checkNameDesc vol0 = Option.none →
      (Dict.getD (normalizeFields vol0) "volume_type" Val.none).truthy = false →
      Dict.getD (normalizeFields vol0) "snapshot_id" Val.none = Val.str "" →
      env.getSnapshot (Val.str "") = Option.none →
      create env vol0 [] =
        (Except.error Err.notFound, [Call.getSnapshot (Val.str "")])) ∧
    (∀ (env : Env) (vol0 : Dict) (snap : Snapshot) (w : Volume) (g : CGroup),
      env.checkNameDesc vol0 = Option.none →
      (Dict.getD (normalizeFields vol0) "volume_type" Val.none).truthy = false →
      Dict.getD (normalizeFields vol0) "snapshot_id" Val.none = Val.str "" →
      Dict.getD (normalizeFields vol0) "source_volid" Val.none = Val.str "" →
      Dict.getD (normalizeFields vol0) "source_replica" Val.none = Val.str "" →
      Dict.getD (normalizeFields vol0) "consistencygroup_id" Val.none =
        Val.str "" →
      env.getSnapshot (Val.str "") = Option.some snap →
      env.getVolume (Val.str "") = Option.some w →
      w.replication_status ≠ Val.str "disabled" →
      env.getCGroup (Val.str "") = Option.some g →
      env.extImageCreate = false →
      (create env vol0 []).2 =
        [Call.getSnapshot (Val.str ""), Call.getVolume (Val.str ""),
          Call.getVolume (Val.str ""), Call.getCGroup (Val.str ""),
          Call.provCreate]) := by
  refine ⟨fun env vol0 htr => ⟨fun cmd cs' h => ?_, fun c hc w => ?_⟩,
    fun env vol0 hchk htr hsnap hmiss => ?_,
    fun env vol0 snap w g hchk htr hs hv hr hg hsl hvl hrep hgl hext => ?_⟩
  · obtain ⟨-, vt, snap, sv, sr, cg, img, t1, t2, t3, t4, t5, t6, h1, h2, h3,
      h4, h5, h6, hcs, hcmd⟩ := create_ok_elim h
    rw [resolveVType_not_truthy htr []] at h1
    have h1' := h1
    simp only [Prod.mk.injEq, Except.ok.injEq] at h1'
    subst hcmd
    simp [mkCreateCmd, h1'.1.symm]
  · rcases create_emits_no_vtype env vol0 htr [] c hc with h1 | h1
    · exact absurd h1 (List.not_mem_nil _)
    · exact h1 w
  · rw [create_of_check_ok hchk]
    have h1 := @resolveVType_not_truthy env (normalizeFields vol0) htr
      ([] : List Call)
    have h2 := @resolveSnapshot_miss env (normalizeFields vol0) (Val.str "")
      hsnap (by decide) hmiss ([] : List Call)
    rw [createBody_snap_error h1 h2]
    simp
  · rw [create_of_check_ok hchk]
    have h1 := @resolveVType_not_truthy env (normalizeFields vol0) htr
      ([] : List Call)
    have h2 := @resolveSnapshot_hit env (normalizeFields vol0) (Val.str "")
      snap hs (by decide) hsl ([] : List Call)
    have h3 := @resolveSourceVolume_hit env (normalizeFields vol0)
      (Val.str "") w hv (by decide) hvl ([Call.getSnapshot (Val.str "")])
    have h4 := @resolveSourceReplica_ok env (normalizeFields vol0)
      (Val.str "") w hr (by decide) hvl hrep
      ([Call.getSnapshot (Val.str ""), Call.getVolume (Val.str "")])
    have h5 := @resolveCGroup_hit env (normalizeFields vol0) (Val.str "") g
      hg (by decide) hgl
      ([Call.getSnapshot (Val.str ""), Call.getVolume (Val.str ""),
        Call.getVolume (Val.str "")])
    have h6 := @resolveImage_off env (normalizeFields vol0) hext
      ([Call.getSnapshot (Val.str ""), Call.getVolume (Val.str ""),
        Call.getVolume (Val.str ""), Call.getCGroup (Val.str "")])
    rw [createBody_steps h1 (by simpa using h2) (by simpa using h3)
      (by simpa using h4) (by simpa using h5) h6]
    rfl

theorem create_presence_asymmetry_witness :
    (create envHits
      [("snapshot_id", Val.str ""), ("source_volid", Val.str ""),
        ("source_replica", Val.str ""), ("consistencygroup_id", Val.str "")]
      []).2 =
      [Call.getSnapshot (Val.str ""), Call.getVolume (Val.str ""),
        Call.getVolume (Val.str ""), Call.getCGroup (Val.str ""),
        Call.provCreate] :=
  create_presence_asymmetry.2.2 envHits
    [("snapshot_id", Val.str ""), ("source_volid", Val.str ""),
      ("source_replica", Val.str ""), ("consistencygroup_id", Val.str "")]
    ⟨Val.int 10⟩ ⟨Val.int 7, Val.str "enabled"⟩ ⟨"CG1"⟩
    (by decide) (by decide) (by decide) (by decide) (by decide) (by decide)
    (by decide) (by decide) (by decide) (by decide) (by decide)

/-- The outcome of the direct-lookup step of image resolution: the
canonical identifier when `show` succeeds on a record carrying `id`,
nothing otherwise. -/
def idLookupResult (env : Env) (u : String) : Option String :=
  match env.imageShow u with
  | Except.ok img => img.id
  | Except.error _ => Option.none

theorem imageUuid_id_hit {env : Env} {s : String} {img : Image} {i : String}
    (hu : env.isUuidLike (lastComp s) = true)
    (hs : env.imageShow (lastComp s) = Except.ok img)
    (hid : img.id = Option.some i) (cs : List Call) :
    imageUuidFromRef env (Val.str s) cs =
      (Except.ok i, cs ++ [Call.imageShow (lastComp s)]) := by
  unfold imageUuidFromRef
  simp [hu, hs, hid, M.bind, M.log, M.pure]

theorem imageUuid_fallthrough {env : Env} {s : String}
    (hfall : env.isUuidLike (lastComp s) = false ∨
      idLookupResult env (lastComp s) = Option.none) (cs : List Call) :
    imageUuidFromRef env (Val.str s) cs =
      ((match env.imageDetail s with
        | Except.error _ => Except.error (Err.badRequest invalidImageMsg)
        | Except.ok images =>
          if images.length > 1 then
            Except.error (Err.conflict ("Multiple matches found for '" ++ s ++
              "', use an ID to be more specific."))
          else
            match images with
            | [] => Except.error (Err.badRequest invalidImageMsg)
            | img :: _ =>
              match img.id with
              | Option.some i => Except.ok i
              | Option.none => Except.error (Err.badRequest invalidImageMsg)),
        (cs ++ (if env.isUuidLike (lastComp s) = true
                then [Call.imageShow (lastComp s)] else [])) ++
          [Call.imageDetail s]) := by
  unfold imageUuidFromRef
  cases hskip : env.isUuidLike (lastComp s) with
  | false =>
    cases hd : env.imageDetail s with
    | error u => simp [hskip, hd, M.bind, M.log, M.pure, M.throw]
    | ok images =>
      by_cases hlen : images.length > 1
      · simp [hskip, hd, hlen, M.bind, M.log, M.pure, M.throw]
      · cases images with
        | nil => simp [hskip, hd, hlen, M.bind, M.log, M.pure, M.throw]
        | cons img rest =>
          have hr0 : rest.length = 0 := by
            simp only [List.length_cons, gt_iff_lt, not_lt] at hlen
            omega
          cases hid : img.id with
          | none =>
            simp [hskip, hd, hlen, hid, hr0, M.bind, M.log, M.pure, M.throw]
          | some i =>
            simp [hskip, hd, hlen, hid, hr0, M.bind, M.log, M.pure, M.throw]
  | true =>
    rcases hfall with hfa | hfa
    · rw [hfa] at hskip
      cases hskip
    · unfold idLookupResult at hfa
      cases hs : env.imageShow (lastComp s) with
      | error u =>
        cases hd : env.imageDetail s with
        | error w => simp [hskip, hs, hd, M.bind, M.log, M.pure, M.throw]
        | ok images =>
          by_cases hlen : images.length > 1
          · simp [hskip, hs, hd, hlen, M.bind, M.log, M.pure, M.throw]
          · cases images with
            | nil => simp [hskip, hs, hd, hlen, M.bind, M.log, M.pure, M.throw]
            | cons img rest =>
              have hr0 : rest.length = 0 := by
                simp only [List.length_cons, gt_iff_lt, not_lt] at hlen
                omega
              cases hid : img.id with
              | none =>
                simp [hskip, hs, hd, hlen, hid, hr0, M.bind, M.log, M.pure,
                  M.throw]
              | some i =>
                simp [hskip, hs, hd, hlen, hid, hr0, M.bind, M.log, M.pure,
                  M.throw]
      | ok img0 =>
        rw [hs] at hfa
        have hfa2 : img0.id = Option.none := hfa
        cases hd : env.imageDetail s with
        | error w =>
          simp [hskip, hs, hfa2, hd, M.bind, M.log, M.pure, M.throw]
        | ok images =>
          by_cases hlen : images.length > 1
          · simp [hskip, hs, hfa2, hd, hlen, M.bind, M.log, M.pure, M.throw]
          · cases images with
            | nil =>
              simp [hskip, hs, hfa2, hd, hlen, M.bind, M.log, M.pure, M.throw]
            | cons img rest =>
              have hr0 : rest.length = 0 := by
                simp only [List.length_cons, gt_iff_lt, not_lt] at hlen
                omega
              cases hid : img.id with
              | none =>
                simp [hskip, hs, hfa2, hd, hlen, hid, hr0, M.bind, M.log,
                  M.pure, M.throw]
              | some i =>
                simp [hskip, hs, hfa2, hd, hlen, hid, hr0, M.bind, M.log,
                  M.pure, M.throw]

/-- C2: image identity resolution. A reference whose (stripped) form is
uuid-like and whose direct lookup succeeds resolves to the canonical
identifier with no name search; when the direct lookup fails for any
reason (or is skipped because the reference is not uuid-like),
resolution falls through to the exact-name catalog search, where a
failing query or zero matches yield BadRequest, more than one match
yields Conflict, and exactly one match yields that image's
identifier. -/
theorem image_ref_resolution (env : Env) (s : String) (cs : List Call) :
    (∀ img i, env.isUuidLike (lastComp s) = true →
      env.imageShow (lastComp s) = Except.ok img → img.id = Option.some i →
      imageUuidFromRef env (Val.str s) cs =
        (Except.ok i, cs ++ [Call.imageShow (lastComp s)])) ∧
    (env.isUuidLike (lastComp s) = false ∨
        idLookupResult env (lastComp s) = Option.none →
      Call.imageDetail s ∈ (imageUuidFromRef env (Val.str s) cs).2 ∧
      (env.imageDetail s = Except.error () →
        (imageUuidFromRef env (Val.str s) cs).1 =
          Except.error (Err.badRequest invalidImageMsg)) ∧
      (env.imageDetail s = Except.ok [] →
        (imageUuidFromRef env (Val.str s) cs).1 =
          Except.error (Err.badRequest invalidImageMsg)) ∧
      (∀ images, env.imageDetail s = Except.ok images → images.length > 1 →
        (imageUuidFromRef env (Val.str s) cs).1 =
          Except.error (Err.conflict ("Multiple matches found for '" ++ s ++
            "', use an ID to be more specific."))) ∧
      (∀ img i, env.imageDetail s = Except.ok [img] →
        img.id = Option.some i →
        (imageUuidFromRef env (Val.str s) cs).1 = Except.ok i)) := by
  constructor
  · intro img i hu hs hid
    exact imageUuid_id_hit hu hs hid cs
  · intro hfall
    rw [imageUuid_fallthrough hfall cs]
    refine ⟨by simp, fun hd => ?_, fun hd => ?_, fun images hd hlen => ?_,
      fun img i hd hid => ?_⟩
    · simp [hd]
    · simp [hd]
    · simp [hd, hlen]
    · simp [hd, hid]

/-- An environment whose catalog resolves the identifier `"abc"`. -/
def envImg : Env :=
  { envOk with
    isUuidLike := fun u => u == "abc"
    imageShow := fun u =>
      if u == "abc" then Except.ok ⟨Option.some "ID9"⟩ else Except.error () }

theorem image_ref_resolution_witness :
    imageUuidFromRef envImg (Val.str "abc") [] =
      (Except.ok "ID9", [] ++ [Call.imageShow (lastComp "abc")]) :=
  (image_ref_resolution envImg "abc" []).1 ⟨Option.some "ID9"⟩ "ID9"
    (by decide) (by rfl) (by rfl)

/-- C10: a non-string image reference fails with BadRequest before any
catalog call (the trace is unchanged), and for string references the
uuid-likeness test and the direct lookup receive only the substring
after the last slash while the fallback name search filters on the
entire original reference. -/
theorem image_ref_stripping (env : Env) :
    (∀ v cs, (∀ s, v ≠ Val.str s) →
      imageUuidFromRef env v cs =
        (Except.error (Err.badRequest "Invalid imageRef provided."), cs)) ∧
    (∀ s cs, env.isUuidLike (lastComp s) = true →
      env.imageShow (lastComp s) = Except.error () →
      (imageUuidFromRef env (Val.str s) cs).2 =
        cs ++ [Call.imageShow (lastComp s), Call.imageDetail s]) := by
  constructor
  · intro v cs hv
    cases v with
    | str s => exact absurd rfl (hv s)
    | none => rfl
    | int n => rfl
    | bool b => rfl
  · intro s cs hu hs
    have hfall : env.isUuidLike (lastComp s) = false ∨
        idLookupResult env (lastComp s) = Option.none :=
      Or.inr (by simp [idLookupResult, hs])
    rw [imageUuid_fallthrough hfall cs]
    simp [hu]

/-- An environment that recognizes `"IMG"` as an identifier but answers
every catalog query with failure or emptiness. -/
def envUrl : Env :=
  { envOk with
    isUuidLike := fun u => u == "IMG"
    imageDetail := fun _ => Except.ok [] }

theorem image_ref_stripping_witness :
    imageUuidFromRef envUrl (Val.int 3) [] =
      (Except.error (Err.badRequest "Invalid imageRef provided."), []) ∧
    (imageUuidFromRef envUrl (Val.str "http://glance/IMG") []).2 =
      [] ++ [Call.imageShow (lastComp "http://glance/IMG"),
        Call.imageDetail "http://glance/IMG"] :=
  ⟨(image_ref_stripping envUrl).1 (Val.int 3) []
      (fun s h => Val.noConfusion h),
    (image_ref_stripping envUrl).2 "http://glance/IMG" [] (by decide) (by rfl)⟩

/-- Modelled from the spec: `cinder.utils.remove_invalid_filter_options`
(code outside this tree) — admins keep every filter, non-admins keep
only the keys of the configured allow-list. -/
def removeInvalidFilterOptions (isAdmin : Bool) (filters : Dict)
    (allow : List String) : Dict :=
  if isAdmin then filters
  else List.filter (fun p => decide (p.1 ∈ allow)) filters

/-- `sort_keys[sort_keys.index(src)] = dst`: replace the first
occurrence of `src`, leaving the rest of the sequence unchanged. -/
def replaceFirst (src dst : String) : List String → List String
  | [] => []
  | k :: rest =>
    if k = src then dst :: rest else k :: replaceFirst src dst rest

/-- Line 107–109: move the `name` filter value to `display_name`. -/
def filtersRenamed (filters1 : Dict) : Dict :=
  match Dict.get filters1 "name" with
  | Option.some v => Dict.erase (Dict.insert filters1 "display_name" v) "name"
  | Option.none => filters1

/-- External collaborators of the listing pipeline: the request context
admin flag, the configured non-admin filter allow-list, the
pagination/sort parsing helpers (which consume their query keys and
return the remaining parameters) and the provisioning collaborator's
filter validation. -/
structure LEnv where
  isAdmin : Bool
  allowList : List String
  paginationParams : Dict → (Val × Val × Val) × Dict
  sortParams : Dict → (List String × List String) × Dict
  checkVolumeFilters : Dict → Option Err

/-- The validated query passed to the provisioning collaborator's
`get_all` entry point. -/
structure ListQuery where
  marker : Val
  limit : Val
  offset : Val
  sort_keys : List String
  sort_dirs : List String
  filters : Dict
deriving DecidableEq, Repr

/-- Lines 86–117, `VolumeController._get_volumes` up to the `get_all`
call: pagination and sort parsing, unconditional removal of the
`glance_metadata` filter, invalid-filter stripping, the two
`name`→`display_name` aliasings, then filter validation. -/
def getVolumesQuery (env : LEnv) (params : Dict) : Except Err ListQuery :=
  match env.checkVolumeFilters (filtersRenamed
      (removeInvalidFilterOptions env.isAdmin
        (Dict.erase (env.sortParams (env.paginationParams params).2).2
          "glance_metadata") env.allowList)) with
  | Option.some e => Except.error e
  | Option.none =>
    Except.ok
      { marker := (env.paginationParams params).1.1
        limit := (env.paginationParams params).1.2.1
        offset := (env.paginationParams params).1.2.2
        sort_keys := replaceFirst "name" "display_name"
          (env.sortParams (env.paginationParams params).2).1.1
        sort_dirs := (env.sortParams (env.paginationParams params).2).1.2
        filters := filtersRenamed
          (removeInvalidFilterOptions env.isAdmin
            (Dict.erase (env.sortParams (env.paginationParams params).2).2
              "glance_metadata") env.allowList) }

theorem Dict.get_filter_none (p : (String × Val) → Bool) (m : Dict)
    (k : String) (h : Dict.get m k = Option.none) :
    Dict.get (List.filter p m) k = Option.none := by
  induction m with
  | nil => simp [Dict.get]
  | cons q rest ih =>
    obtain ⟨k', v'⟩ := q
    by_cases hk : k' = k
    · simp [Dict.get, hk] at h
    · simp only [Dict.get, if_neg hk] at h
      by_cases hp : p (k', v')
      · simp [List.filter, hp, Dict.get, hk, ih h]
      · simp [List.filter, hp, ih h]

theorem get_removeInvalid_none (isAdmin : Bool) (m : Dict)
    (allow : List String) (k : String) (h : Dict.get m k = Option.none) :
    Dict.get (removeInvalidFilterOptions isAdmin m allow) k = Option.none := by
  unfold removeInvalidFilterOptions
  cases isAdmin with
  | false => simpa using Dict.get_filter_none _ m k h
  | true => simpa using h

theorem get_filtersRenamed_other (m : Dict) (k : String) (h1 : k ≠ "name")
    (h2 : k ≠ "display_name") :
    Dict.get (filtersRenamed m) k = Dict.get m k := by
  unfold filtersRenamed
  cases hg : Dict.get m "name" with
  | none => rfl
  | some v => rw [Dict.get_erase_ne _ _ _ h1, Dict.get_insert_ne _ _ _ _ h2]

theorem replaceFirst_of_not_mem {src : String} (dst : String)
    {l : List String} (h : src ∉ l) : replaceFirst src dst l = l := by
  induction l with
  | nil => rfl
  | cons k rest ih =>
    simp only [List.mem_cons, not_or] at h
    simp [replaceFirst, Ne.symm h.1, ih h.2]

theorem mem_dst_replaceFirst {src : String} (dst : String) {l : List String}
    (h : src ∈ l) : dst ∈ replaceFirst src dst l := by
  induction l with
  | nil => simp at h
  | cons k rest ih =>
    by_cases hk : k = src
    · simp [replaceFirst, hk]
    · rcases List.mem_cons.mp h with h1 | h1
      · exact absurd h1.symm hk
      · simp [replaceFirst, hk, ih h1]

theorem not_mem_replaceFirst {src dst : String} (hne : src ≠ dst)
    {l : List String} (h : List.count src l ≤ 1) :
    src ∉ replaceFirst src dst l := by
  induction l with
  | nil => simp [replaceFirst]
  | cons k rest ih =>
    by_cases hk : k = src
    · subst hk
      rw [List.count_cons_self] at h
      have h0 : List.count k rest = 0 := by omega
      have hrw : replaceFirst k dst (k :: rest) = dst :: rest := by
        simp [replaceFirst]
      rw [hrw]
      simp only [List.mem_cons, not_or]
      exact ⟨hne, List.count_eq_zero.mp h0⟩
    · rw [List.count_cons_of_ne (Ne.symm hk)] at h
      have hrw : replaceFirst src dst (k :: rest) =
          k :: replaceFirst src dst rest := by
        simp [replaceFirst, hk]
      rw [hrw]
      simp only [List.mem_cons, not_or]
      exact ⟨Ne.symm hk, ih h⟩

/-- C5: for every listing request accepted into a `get_all` query, the
`glance_metadata` filter key is gone regardless of admin status; the
`name` sort key is rewritten to `display_name` (untouched sequence when
absent, `display_name` present when it occurred, and no `name` left when
it occurred at most once); and a `name` filter key surviving
invalid-filter stripping has its value moved to `display_name` with the
`name` key removed. -/
theorem listing_query_rules (env : LEnv) (params : Dict) (q : ListQuery)
    (h : getVolumesQuery env params = Except.ok q) :
    Dict.get q.filters "glance_metadata" = Option.none ∧
    (("name" ∉ (env.sortParams (env.paginationParams params).2).1.1 →
        q.sort_keys = (env.sortParams (env.paginationParams params).2).1.1) ∧
      ("name" ∈ (env.sortParams (env.paginationParams params).2).1.1 →
        "display_name" ∈ q.sort_keys) ∧
      (List.count "name" (env.sortParams (env.paginationParams params).2).1.1
          ≤ 1 → "name" ∉ q.sort_keys)) ∧
    (∀ v, Dict.get (removeInvalidFilterOptions env.isAdmin
          (Dict.erase (env.sortParams (env.paginationParams params).2).2
            "glance_metadata") env.allowList) "name" = Option.some v →
      Dict.get q.filters "display_name" = Option.some v ∧
      Dict.get q.filters "name" = Option.none) := by
  unfold getVolumesQuery at h
  cases hcf : env.checkVolumeFilters (filtersRenamed
      (removeInvalidFilterOptions env.isAdmin
        (Dict.erase (env.sortParams (env.paginationParams params).2).2
          "glance_metadata") env.allowList)) with
  | some e =>
    rw [hcf] at h
    exact absurd h (by simp)
  | none =>
    rw [hcf] at h
    simp only [Except.ok.injEq] at h
    subst h
    dsimp only
    refine ⟨?_, ⟨fun hnm => replaceFirst_of_not_mem _ hnm,
      fun hmem => mem_dst_replaceFirst _ hmem,
      fun hcount => not_mem_replaceFirst (by decide) hcount⟩, fun v hv => ?_⟩
    · rw [get_filtersRenamed_other _ _ (by decide) (by decide)]
      exact get_removeInvalid_none _ _ _ _
        (Dict.get_erase_self (env.sortParams (env.paginationParams params).2).2
          "glance_metadata")
    · unfold filtersRenamed
      rw [hv]
      constructor
      · rw [Dict.get_erase_ne _ _ _ (by decide), Dict.get_insert_self]
      · rw [Dict.get_erase_self]

/-- A concrete listing environment: non-admin, `name` allow-listed,
pagination and sort parsing that consume nothing. -/
def envList : LEnv where
  isAdmin := false
  allowList := ["name", "status"]
  paginationParams := fun p => ((Val.none, Val.none, Val.none), p)
  sortParams := fun p => ((["name", "created_at"], ["desc"]), p)
  checkVolumeFilters := fun _ => Option.none

/-- The raw parameters of the C5 witness request. -/
def paramsList : Dict :=
  [("glance_metadata", Val.str "g"), ("name", Val.str "n"),
    ("bogus", Val.str "b")]

/-- The query the C5 witness request produces. -/
def qList : ListQuery where
  marker := Val.none
  limit := Val.none
  offset := Val.none
  sort_keys := ["display_name", "created_at"]
  sort_dirs := ["desc"]
  filters := [("display_name", Val.str "n")]

theorem listing_query_rules_witness :
    Dict.get qList.filters "glance_metadata" = Option.none ∧
    (("name" ∉ (envList.sortParams (envList.paginationParams paramsList).2).1.1 →
        qList.sort_keys =
          (envList.sortParams (envList.paginationParams paramsList).2).1.1) ∧
      ("name" ∈ (envList.sortParams (envList.paginationParams paramsList).2).1.1 →
        "display_name" ∈ qList.sort_keys) ∧
      (List.count "name"
          (envList.sortParams (envList.paginationParams paramsList).2).1.1 ≤ 1 →
        "name" ∉ qList.sort_keys)) ∧
    (∀ v, Dict.get (removeInvalidFilterOptions envList.isAdmin
          (Dict.erase (envList.sortParams
              (envList.paginationParams paramsList).2).2 "glance_metadata")
          envList.allowList) "name" = Option.some v →
      Dict.get qList.filters "display_name" = Option.some v ∧
      Dict.get qList.filters "name" = Option.none) :=
  listing_query_rules envList paramsList qList (by rfl)

/-- The update payload: a mapping from top-level keys to dict-valued
entries (`body['volume']` must itself be a mapping). -/
abbrev Body := List (String × Dict)

/-- `body.get(k)` on the top-level payload. -/
def bodyGet : Body → String → Option Dict
  | [], _ => Option.none
  | (k', v) :: rest, k => if k' = k then Option.some v else bodyGet rest k

/-- Lines 300–306: the allow-listed mutable keys, in source order. -/
def valid_update_keys : List String :=
  ["name", "description", "display_name", "display_description", "metadata"]

/-- One step of the extraction loop of lines 308–310. -/
def extractStep (volume : Dict) (acc : Dict) (k : String) : Dict :=
  match Dict.get volume k with
  | Option.some v => Dict.insert acc k v
  | Option.none => acc

/-- Lines 308–310: `update_dict[key] = volume[key]` for every
allow-listed key present in the payload, in key order. -/
def extractKeys (keys : List String) (volume : Dict) : Dict :=
  List.foldl (extractStep volume) [] keys

/-- Lines 289–321 of `VolumeController.update`, up to the collaborator
calls: empty-body and missing-`volume`-key checks, allow-listed
extraction, the shared name/description validation, then the
`name`/`description` aliasing. -/
def updateFieldSet (check : Dict → Option Err) (body : Body) :
    Except Err Dict :=
  if body.isEmpty then
    Except.error (Err.badRequest "Missing request body")
  else
    match bodyGet body "volume" with
    | Option.none =>
      Except.error
        (Err.badRequest "Missing required element 'volume' in request body")
    | Option.some volume =>
      match check (extractKeys valid_update_keys volume) with
      | Option.some e => Except.error e
      | Option.none =>
        Except.ok (Dict.popAssign
          (Dict.popAssign (extractKeys valid_update_keys volume)
            "name" "display_name")
          "description" "display_description")

/-- `volume.update(update_dict)`: merge the update fields into the
record representation. -/
def Dict.updateAll (m upd : Dict) : Dict :=
  List.foldl (fun acc p => Dict.insert acc p.1 p.2) m upd

/-- External collaborators of the update path: the shared validation
contract, `volume_api.get` and `volume_api.update` (whose
InvalidVolumeMetadataSize failure becomes RequestEntityTooLarge). -/
structure UEnv where
  checkNameDesc : Dict → Option Err
  volGet : Except Err Dict
  volUpdate : Dict → Option String

/-- Lines 285–339, `VolumeController.update`: build the update field
set, fetch the existing record, apply the update (mapping the
metadata-size failure), and merge the fields into the returned
record. -/
def update (env : UEnv) (body : Body) : Except Err Dict :=
  match updateFieldSet env.checkNameDesc body with
  | Except.error e => Except.error e
  | Except.ok update_dict =>
    match env.volGet with
    | Except.error e => Except.error e
    | Except.ok volume =>
      match env.volUpdate update_dict with
      | Option.some msg => Except.error (Err.entityTooLarge msg)
      | Option.none => Except.ok (Dict.updateAll volume update_dict)

theorem extractKeys_mem_aux (volume : Dict) (keys : List String) :
    ∀ (acc : Dict) (k : String),
      Dict.get (List.foldl (extractStep volume) acc keys) k ≠ Option.none →
      Dict.get acc k ≠ Option.none ∨ k ∈ keys := by
  induction keys with
  | nil =>
    intro acc k h
    exact Or.inl h
  | cons k0 ks ih =>
    intro acc k h
    rw [List.foldl_cons] at h
    rcases ih (extractStep volume acc k0) k h with h1 | h1
    · unfold extractStep at h1
      cases hv : Dict.get volume k0 with
      | none => rw [hv] at h1; exact Or.inl h1
      | some v =>
        rw [hv] at h1
        by_cases hk : k = k0
        · exact Or.inr (by simp [hk])
        · rw [Dict.get_insert_ne _ _ _ _ hk] at h1
          exact Or.inl h1
    · exact Or.inr (List.mem_cons_of_mem _ h1)

theorem get_popAssign_reverse {m : Dict} {src dst k : String}
    (h : Dict.get (Dict.popAssign m src dst) k ≠ Option.none) :
    Dict.get m k ≠ Option.none ∨ k = dst := by
  unfold Dict.popAssign at h
  cases hg : Dict.get m src with
  | none => rw [hg] at h; exact Or.inl h
  | some v =>
    rw [hg] at h
    by_cases hk : k = dst
    · exact Or.inr hk
    · rw [Dict.get_insert_ne _ _ _ _ hk] at h
      by_cases hks : k = src
      · subst hks
        rw [Dict.get_erase_self] at h
        exact absurd rfl h
      · rw [Dict.get_erase_ne _ _ _ hks] at h
        exact Or.inl h

/-- C6: an empty update payload and a payload without a top-level
`volume` key both fail with BadRequest; the payload
`{volume: {name: "x"}}` (validation passing) produces the field set
`{display_name: "x"}` with no `name` key; only the allow-listed keys are
extracted, and after aliasing only `display_name`,
`display_description` and `metadata` can appear in the field set. -/
theorem update_field_set_rules :
    (∀ check, updateFieldSet check [] =
      Except.error (Err.badRequest "Missing request body")) ∧
    (∀ check (body : Body), body ≠ [] → bodyGet body "volume" = Option.none →
      updateFieldSet check body =
        Except.error
          (Err.badRequest "Missing required element 'volume' in request body")) ∧
    (∀ check, check [("name", Val.str "x")] = Option.none →
      updateFieldSet check [("volume", [("name", Val.str "x")])] =
        Except.ok [("display_name", Val.str "x")]) ∧
    (∀ volume k,
      Dict.get (extractKeys valid_update_keys volume) k ≠ Option.none →
      k ∈ valid_update_keys) ∧
    (∀ check (body : Body) (d : Dict) (k : String),
      updateFieldSet check body = Except.ok d →
      Dict.get d k ≠ Option.none →
      k ∈ ["display_name", "display_description", "metadata"]) := by
  have hmem : ∀ volume k,
      Dict.get (extractKeys valid_update_keys volume) k ≠ Option.none →
      k ∈ valid_update_keys := by
    intro volume k h
    rcases extractKeys_mem_aux volume valid_update_keys [] k h with h1 | h1
    · simp [Dict.get] at h1
    · exact h1
  refine ⟨fun check => rfl, fun check body hne hget => ?_, fun check hchk => ?_,
    hmem, fun check body d k hok hget => ?_⟩
  · unfold updateFieldSet
    rw [if_neg (by simpa [List.isEmpty_iff] using hne), hget]
  · have hred : updateFieldSet check [("volume", [("name", Val.str "x")])] =
        (match check [("name", Val.str "x")] with
          | Option.some e => Except.error e
          | Option.none => Except.ok [("display_name", Val.str "x")]) := by
      rfl
    rw [hred, hchk]
  · unfold updateFieldSet at hok
    by_cases hbe : List.isEmpty body
    · rw [if_pos hbe] at hok
      exact absurd hok (by simp)
    · rw [if_neg hbe] at hok
      cases hbg : bodyGet body "volume" with
      | none =>
        rw [hbg] at hok
        exact absurd hok (by simp)
      | some volume =>
        simp only [hbg] at hok
        cases hck : check (extractKeys valid_update_keys volume) with
        | some e =>
          simp [hck] at hok
        | none =>
          simp only [hck, Except.ok.injEq] at hok
          subst hok
          rcases get_popAssign_reverse hget with h1 | h1
          · rcases get_popAssign_reverse h1 with h2 | h2
            · have h3 := hmem volume k h2
              rcases (by simpa [valid_update_keys] using h3 :
                  k = "name" ∨ k = "description" ∨ k = "display_name" ∨
                    k = "display_description" ∨ k = "metadata") with
                rfl | rfl | rfl | rfl | rfl
              · refine absurd ?_ hget
                rw [Dict.get_popAssign_other _ _ _ _ (by decide) (by decide),
                  Dict.get_popAssign_src _ _ _ (by decide)]
              · refine absurd ?_ hget
                rw [Dict.get_popAssign_src _ _ _ (by decide)]
              · simp
              · simp
              · simp
            · simp [h2]
          · simp [h1]

theorem update_field_set_rules_witness :
    updateFieldSet (fun _ => Option.none)
        [("volume", [("name", Val.str "x")])] =
      Except.ok [("display_name", Val.str "x")] :=
  update_field_set_rules.2.2.1 (fun _ => Option.none) rfl

end Cinder
